import Mathlib

/-!
Shallow embedding of `src/app.ts` (the `App` lifecycle orchestrator of an
Express HTTP server) and proofs about its startup/shutdown sequencing.

The TypeScript class owns an Express application handle and a port; its
`init` method registers middleware, mounts the `/users` router, registers
the exception filter, awaits the storage connect, registers a SIGINT
handler and finally calls `listen`.  We embed this as explicit state
passing: `AppState` carries the Express middleware stack, the ports passed
to `listen`, the number of registered SIGINT handlers, the info-level log
sink and a trace of observable events.  Asynchronous collaborator calls
that can reject (`connect`, `disconnect`) are parameterised by their
outcome as an `Except ε Unit` value; a rejection propagates as `.error`.
-/

namespace AppSpec

/-- A middleware item registered on the Express application via `app.use`,
in the order the source registers them: helmet, the two body parsers, the
morgan access logger (with its format string), the `/users` router mount and
the exception filter (`exceptionFilter.catch` bound as the final handler). -/
inductive Middleware where
  | helmet
  | bodyParserUrlencoded (extended : Bool)
  | bodyParserJson
  | morgan (format : String)
  | router (path : String)
  | exceptionFilter
  deriving DecidableEq

/-- Observable events emitted by the orchestrator, in program order:
middleware registration, the awaited storage connect, the SIGINT handler
registration, the listen call on a port, an info-level log message, the
awaited storage disconnect and the process-exit request. -/
inductive Event where
  | use (m : Middleware)
  | storageConnect
  | sigintRegister
  | listenStart (port : Nat)
  | logInfo (label : String) (msg : String)
  | storageDisconnect
  | exitProcess (code : Nat)
  deriving DecidableEq

/-- The Express application handle: the registered middleware chain (in
registration order) and the list of ports `listen` has been called with. -/
structure ExpressApp where
  stack : List Middleware
  listened : List Nat
  deriving DecidableEq

/-- The server section of the configuration (`TServerConfig`): at least a
`port` field. -/
structure TServerConfig where
  port : Nat
  deriving DecidableEq

/-- The configuration collaborator (`IConfigService`): a `get` consulted
with a section key; the source calls `get<TServerConfig>('server')`. -/
structure IConfigService where
  get : String → TServerConfig

/-- State owned by the `App` orchestrator: the Express handle, the port
read at construction, the number of registered SIGINT handlers, the
info-level log messages emitted through the logger collaborator (category
label, formatted string) and the event trace. -/
structure AppState where
  app : ExpressApp
  port : Nat
  sigintHandlers : Nat
  infoLog : List (String × String)
  trace : List Event
  deriving DecidableEq

/-- The `App` constructor: creates a fresh Express handle and reads the
port once from `configService.get('server').port`. -/
def App.new (configService : IConfigService) : AppState :=
  { app := { stack := [], listened := [] }
    port := (configService.get "server").port
    sigintHandlers := 0
    infoLog := []
    trace := [] }

/-- `this.app.use(m)`: appends a middleware to the end of the chain and
records the registration in the trace. -/
def appUse (s : AppState) (m : Middleware) : AppState :=
  { s with
    app := { s.app with stack := s.app.stack ++ [m] }
    trace := s.trace ++ [Event.use m] }

/-- The morgan format string the source passes: `':method :url :status'`. -/
def accessLogFormat : String := ":method :url :status"

/-- `App.useMiddleware`: helmet, then body-parser urlencoded (extended),
then body-parser json, then morgan with the fixed format string. -/
def useMiddleware (s : AppState) : AppState :=
  appUse (appUse (appUse (appUse s Middleware.helmet)
    (Middleware.bodyParserUrlencoded true)) Middleware.bodyParserJson)
    (Middleware.morgan accessLogFormat)

/-- `App.useRoutes`: mounts the user controller router under `/users`. -/
def useRoutes (s : AppState) : AppState :=
  appUse s (Middleware.router "/users")

/-- `App.useExceptionFilters`: registers the exception filter handler. -/
def useExceptionFilters (s : AppState) : AppState :=
  appUse s Middleware.exceptionFilter

/-- `App.useDatabase`: awaits `memoryStorage.connect()`; if it rejects the
rejection propagates and nothing further happens; if it resolves, a SIGINT
handler is registered on the process. -/
def useDatabase {ε : Type} (connectResult : Except ε Unit)
    (s : AppState) : AppState × Except ε Unit :=
  let s1 := { s with trace := s.trace ++ [Event.storageConnect] }
  match connectResult with
  | Except.error e => (s1, Except.error e)
  | Except.ok _ =>
    ({ s1 with
        sigintHandlers := s1.sigintHandlers + 1
        trace := s1.trace ++ [Event.sigintRegister] }, Except.ok ())

/-- The message template the listen callback logs. -/
def listenMessage (port : Nat) : String :=
  "Server started listening on port " ++ toString port

/-- `App.listen`: calls `this.app.listen(this.port, cb)` where the callback
logs an info-level message through the logger collaborator with category
label `'app'`. -/
def listen (s : AppState) : AppState :=
  { s with
    app := { s.app with listened := s.app.listened ++ [s.port] }
    infoLog := s.infoLog ++ [("app", listenMessage s.port)]
    trace := s.trace ++
      [Event.listenStart s.port, Event.logInfo "app" (listenMessage s.port)] }

/-- `App.init`: useMiddleware; useRoutes; useExceptionFilters; await
useDatabase; listen.  A rejection from the storage connect propagates out
and `listen` is never reached. -/
def init {ε : Type} (connectResult : Except ε Unit)
    (s : AppState) : AppState × Except ε Unit :=
  let s1 := useMiddleware s
  let s2 := useRoutes s1
  let s3 := useExceptionFilters s2
  match useDatabase connectResult s3 with
  | (s4, Except.error e) => (s4, Except.error e)
  | (s4, Except.ok _) => (listen s4, Except.ok ())

/-- Delivery of one SIGINT signal.  Each handler registered by
`useDatabase` runs `await memoryStorage.disconnect(); process.exit(0)`.
With no handler registered this layer does nothing.  Each registered
handler starts a disconnect; once disconnect resolves, `process.exit(0)`
is requested; if disconnect rejects, the rejection is not caught by the
handler and no exit is requested by this layer. -/
def deliverSigint {ε : Type} (disconnectResult : Except ε Unit)
    (s : AppState) : AppState × Except ε Unit :=
  if s.sigintHandlers = 0 then (s, Except.ok ())
  else
    match disconnectResult with
    | Except.ok _ =>
      ({ s with trace := s.trace ++
          List.replicate s.sigintHandlers Event.storageDisconnect ++
          [Event.exitProcess 0] }, Except.ok ())
    | Except.error e =>
      ({ s with trace := s.trace ++
          List.replicate s.sigintHandlers Event.storageDisconnect },
        Except.error e)

/-- An HTTP request as seen by the morgan access logger: method, url and
the response status. -/
structure Request where
  method : String
  url : String
  status : Nat

/-- Splits a character list into space-separated words (the tokenisation
morgan applies to a format string of predefined tokens). -/
def splitWordsAux : List Char → List Char → List String
  | [], acc => [String.mk acc.reverse]
  | c :: cs, acc =>
    if c = ' ' then String.mk acc.reverse :: splitWordsAux cs []
    else splitWordsAux cs (c :: acc)

/-- The token list of a morgan format string. -/
def morganTokens (fmt : String) : List String :=
  splitWordsAux fmt.data []

/-- Renders one morgan token against a request: `:method`, `:url` and
`:status` substitute the request fields; any other token is literal. -/
def renderToken (r : Request) (t : String) : String :=
  if t = ":method" then r.method
  else if t = ":url" then r.url
  else if t = ":status" then toString r.status
  else t

/-- The access-log line morgan emits for a request under a format string:
the rendered tokens joined by single spaces. -/
def morganLine (fmt : String) (r : Request) : String :=
  String.intercalate " " ((morganTokens fmt).map (renderToken r))

end AppSpec

namespace AppSpec

/-- A state whose only deviation from a fresh one is a single registered
SIGINT handler, used to instantiate hypotheses about the shutdown path. -/
def oneHandlerState : AppState :=
  { app := { stack := [], listened := [] }
    port := 3000
    sigintHandlers := 1
    infoLog := []
    trace := [] }

/-- C1: every execution of `init` performs the registration steps in strict
order — baseline middleware (helmet, the two body parsers, morgan), then
the `/users` routes, then the exception filter, then the awaited storage
connect, then the SIGINT handler registration, and only after connect has
completed is `listen` invoked: the trace produced by a successful `init`
is exactly this sequence, with the listen event strictly after the
storage-connect event. -/
theorem init_registration_order (s : AppState) :
    (init (Except.ok () : Except Unit Unit) s).1.trace =
      s.trace ++
        [Event.use Middleware.helmet,
         Event.use (Middleware.bodyParserUrlencoded true),
         Event.use Middleware.bodyParserJson,
         Event.use (Middleware.morgan accessLogFormat),
         Event.use (Middleware.router "/users"),
         Event.use Middleware.exceptionFilter,
         Event.storageConnect,
         Event.sigintRegister,
         Event.listenStart s.port,
         Event.logInfo "app" (listenMessage s.port)] := by
  simp [init, useMiddleware, useRoutes, useExceptionFilters, useDatabase,
    appUse, listen]

/-- C2: if the storage connect rejects, `init` never invokes `listen`
(the listened ports are unchanged and no listen event is traced), the
rejection propagates to the caller of `init`, and the trace shows exactly
one connect attempt with no retry or local handling. -/
theorem init_connect_failure_no_listen {ε : Type} (e : ε) (s : AppState) :
    (init (Except.error e) s).2 = Except.error e ∧
    (init (Except.error e) s).1.app.listened = s.app.listened ∧
    (init (Except.error e) s).1.trace =
      s.trace ++
        [Event.use Middleware.helmet,
         Event.use (Middleware.bodyParserUrlencoded true),
         Event.use Middleware.bodyParserJson,
         Event.use (Middleware.morgan accessLogFormat),
         Event.use (Middleware.router "/users"),
         Event.use Middleware.exceptionFilter,
         Event.storageConnect] := by
  refine ⟨?_, ?_, ?_⟩ <;>
    simp [init, useMiddleware, useRoutes, useExceptionFilters, useDatabase,
      appUse, listen]

/-- C3: after a successful `init`, delivering one SIGINT signal appends to
the trace exactly one awaited storage disconnect followed by the request to
terminate the process with exit code 0, and nothing else — no request
draining or cancellation occurs, and exit is requested only after the
disconnect has resolved. -/
theorem sigint_disconnects_once_then_exit (c : IConfigService) :
    (deliverSigint (Except.ok () : Except Unit Unit)
        (init (Except.ok () : Except Unit Unit) (App.new c)).1).1.trace =
      (init (Except.ok () : Except Unit Unit) (App.new c)).1.trace ++
        [Event.storageDisconnect, Event.exitProcess 0] ∧
    (deliverSigint (Except.ok () : Except Unit Unit)
        (init (Except.ok () : Except Unit Unit) (App.new c)).1).2 =
      Except.ok () := by
  constructor <;>
    simp [deliverSigint, init, useMiddleware, useRoutes, useExceptionFilters,
      useDatabase, appUse, listen, App.new]

/-- C4: the port is read once from the `port` field of the server section
returned by the configuration collaborator at construction time, is never
changed by `init` or by SIGINT delivery, and the port passed to the
listener by a successful `init` is exactly that configured value. -/
theorem port_from_config_immutable (c : IConfigService) {ε : Type}
    (cr dr : Except ε Unit) (s : AppState) :
    (App.new c).port = (c.get "server").port ∧
    (init cr s).1.port = s.port ∧
    (deliverSigint dr s).1.port = s.port ∧
    (init (Except.ok () : Except Unit Unit) (App.new c)).1.app.listened =
      [(c.get "server").port] := by
  refine ⟨rfl, ?_, ?_, ?_⟩
  · cases cr <;>
      simp [init, useMiddleware, useRoutes, useExceptionFilters, useDatabase,
        appUse, listen]
  · cases dr <;> simp [deliverSigint] <;> split <;> simp
  · simp [init, useMiddleware, useRoutes, useExceptionFilters, useDatabase,
      appUse, listen, App.new]

/-- C5: the exception filter is the last middleware registered: at the
moment `useExceptionFilters` runs inside `init`, the chain already holds
the four baseline middleware and the `/users` route group, the filter sits
at the end of the chain (its 1-based position 6 equals the chain length at
registration time), and `init` registers nothing on the chain after it. -/
theorem exception_filter_registered_last (c : IConfigService) :
    (useExceptionFilters (useRoutes (useMiddleware (App.new c)))).app.stack =
      [Middleware.helmet, Middleware.bodyParserUrlencoded true,
       Middleware.bodyParserJson, Middleware.morgan accessLogFormat,
       Middleware.router "/users", Middleware.exceptionFilter] ∧
    (useExceptionFilters
        (useRoutes (useMiddleware (App.new c)))).app.stack.getLast? =
      some Middleware.exceptionFilter ∧
    (init (Except.ok () : Except Unit Unit) (App.new c)).1.app.stack =
      (useExceptionFilters (useRoutes (useMiddleware (App.new c)))).app.stack := by
  refine ⟨?_, ?_, ?_⟩ <;>
    simp [init, useMiddleware, useRoutes, useExceptionFilters, useDatabase,
      appUse, listen, App.new]

/-- C6: the access logger registered by `init` uses the fixed format
`:method :url :status`, so the log line for any request is the request
method, the request path (url) and the response status in that order,
separated by single spaces. -/
theorem morgan_access_log_format (r : Request) :
    morganLine accessLogFormat r =
      r.method ++ " " ++ r.url ++ " " ++ toString r.status := by
  have h : morganTokens accessLogFormat = [":method", ":url", ":status"] := by
    decide
  rw [morganLine, h]
  rfl

/-- C7: a successful `init` emits exactly one info-level message through
the logger collaborator — category label `app` and a formatted string
reporting the port the server listens on. -/
theorem init_logs_listening_port_once (c : IConfigService) :
    (init (Except.ok () : Except Unit Unit) (App.new c)).1.infoLog =
      [("app", listenMessage (c.get "server").port)] := by
  simp [init, useMiddleware, useRoutes, useExceptionFilters, useDatabase,
    appUse, listen, App.new]

/-- C8: `init` has no double-start guard: a second `init` on the same
instance is not rejected (it resolves), re-registers the whole middleware
chain (the stack doubles), registers a second SIGINT handler, attempts a
second storage connect, starts a second listen on the same port, and the
resulting state differs from the single-`init` state — so `init` twice is
not equivalent to `init` once. -/
theorem init_no_double_start_guard (c : IConfigService) :
    (init (Except.ok () : Except Unit Unit)
        (init (Except.ok () : Except Unit Unit) (App.new c)).1).2 =
      Except.ok () ∧
    (init (Except.ok () : Except Unit Unit)
        (init (Except.ok () : Except Unit Unit) (App.new c)).1).1.app.stack =
      (init (Except.ok () : Except Unit Unit) (App.new c)).1.app.stack ++
        (init (Except.ok () : Except Unit Unit) (App.new c)).1.app.stack ∧
    (init (Except.ok () : Except Unit Unit)
        (init (Except.ok () : Except Unit Unit)
          (App.new c)).1).1.sigintHandlers = 2 ∧
    (init (Except.ok () : Except Unit Unit)
        (init (Except.ok () : Except Unit Unit) (App.new c)).1).1.app.listened =
      [(c.get "server").port, (c.get "server").port] ∧
    List.count Event.storageConnect
      (init (Except.ok () : Except Unit Unit)
        (init (Except.ok () : Except Unit Unit) (App.new c)).1).1.trace = 2 ∧
    (init (Except.ok () : Except Unit Unit)
        (init (Except.ok () : Except Unit Unit) (App.new c)).1).1 ≠
      (init (Except.ok () : Except Unit Unit) (App.new c)).1 := by
  refine ⟨?_, ?_, ?_, ?_, ?_, ?_⟩ <;>
    simp [init, useMiddleware, useRoutes, useExceptionFilters, useDatabase,
      appUse, listen, App.new, List.count_cons, AppState.mk.injEq,
      ExpressApp.mk.injEq]

/-- C9: if the storage connect rejects during `init`, the SIGINT handler
is never registered (handler registration sits strictly after the awaited
connect), so a later SIGINT signal causes this layer to do nothing — in
particular no storage disconnect is invoked. -/
theorem connect_failure_no_sigint_handler (c : IConfigService)
    {ε ε2 : Type} (e : ε) (dr : Except ε2 Unit) :
    (init (Except.error e) (App.new c)).1.sigintHandlers = 0 ∧
    deliverSigint dr (init (Except.error e) (App.new c)).1 =
      ((init (Except.error e) (App.new c)).1, Except.ok ()) := by
  constructor <;>
    simp [init, useMiddleware, useRoutes, useExceptionFilters, useDatabase,
      appUse, listen, App.new, deliverSigint]

/-- C10: with one registered SIGINT handler, if the storage disconnect
rejects inside the handler, the rejection is not caught at this layer and
process termination is not requested: the trace gains exactly the
disconnect attempt (no exit event) and the rejection propagates. -/
theorem sigint_disconnect_failure_uncaught {ε : Type} (e : ε)
    (s : AppState) (h : s.sigintHandlers = 1) :
    (deliverSigint (Except.error e) s).1.trace =
      s.trace ++ [Event.storageDisconnect] ∧
    (deliverSigint (Except.error e) s).2 = Except.error e := by
  simp [deliverSigint, h]

/-- Witness for C10 at a concrete state with one registered handler. -/
theorem sigint_disconnect_failure_uncaught_witness :
    oneHandlerState.sigintHandlers = 1 ∧
    ((deliverSigint (Except.error () : Except Unit Unit)
        oneHandlerState).1.trace =
      oneHandlerState.trace ++ [Event.storageDisconnect] ∧
     (deliverSigint (Except.error () : Except Unit Unit)
        oneHandlerState).2 = Except.error ()) :=
  ⟨rfl, sigint_disconnect_failure_uncaught () oneHandlerState rfl⟩

end AppSpec
